import Mathlib

/-!
Verification development for the `with-docker` Conan custom command
(`cmd_with_docker.py`).  The file embeds the configuration
reconciliation logic (`ConfigItem`, `WithDockerConfig`) and the docker
command synthesis (`DockerCommandFactory`) as executable Lean
definitions, then proves or refutes the stated properties about them.
-/

/-- Model of the dynamically typed Python values that flow through the
configuration logic of `cmd_with_docker.py`: `None`, a `bool`, or a
`str`.  These are the only value shapes the module produces (defaults
are `None` or `True`, environment/CLI/file values are strings, and
`truthy_value` produces booleans or `None`). -/
inductive PyVal where
  | none
  | bool (b : Bool)
  | str (s : String)
deriving DecidableEq, Repr

/-- Python truthiness restricted to the value shapes of `PyVal`:
`None` is falsy, a `bool` is itself, a `str` is truthy iff non-empty. -/
def PyVal.truthy : PyVal → Bool
  | PyVal.none => false
  | PyVal.bool b => b
  | PyVal.str s => !(s == "")

/-- Python `str(v)` for the value shapes of `PyVal`, as used by
f-string interpolation and by `str(item.default)`. -/
def pyStr : PyVal → String
  | PyVal.none => "None"
  | PyVal.bool true => "True"
  | PyVal.bool false => "False"
  | PyVal.str s => s

/-- Python's short-circuiting `or`: returns the first operand when it
is truthy, otherwise the second.  `get_reconciled_defaults` chains
tiers with this operator. -/
def pyOr (a b : PyVal) : PyVal :=
  if a.truthy then a else b

/-- Python `os.getenv` result (`None` or a `str`) as a `PyVal`. -/
def optStr : Option String → PyVal
  | Option.none => PyVal.none
  | Option.some s => PyVal.str s

/-- Python `str.lower()`, modelled character-wise (the strings the
program compares are ASCII). -/
def pyLower (s : String) : String :=
  String.mk (s.data.map Char.toLower)

/-- Python `str.strip()`: surrounding whitespace removed from both
ends, modelled character-wise. -/
def pyStrip (s : String) : String :=
  String.mk (((s.data.dropWhile Char.isWhitespace).reverse.dropWhile Char.isWhitespace).reverse)

/-- `ConfigItem.truthy_value` from `cmd_with_docker.py`: a `bool` is
returned unchanged; a `str` is lower-cased and tested for membership in
the tuple `("true", "t", "yes", "y", "1")`; any other value falls off
the end of the Python function and yields `None`. -/
def truthy_value : PyVal → PyVal
  | PyVal.bool b => PyVal.bool b
  | PyVal.str s =>
      PyVal.bool ((["true", "t", "yes", "y", "1"] : List String).contains (pyLower s))
  | PyVal.none => PyVal.none

/-- Python's `in` operator on strings: `needle in hay`, true iff
`needle` occurs as a contiguous substring of `hay`. -/
def pyContains (hay needle : String) : Bool :=
  hay.data.tails.any (fun t => needle.data.isPrefixOf t)

/-- The declared type of a `ConfigItem`: the Python constructor is
called with `str` or `bool`. -/
inductive VarType where
  | str
  | bool
deriving DecidableEq, Repr

/-- One configurable setting of `WithDockerConfig`: a name, a built-in
default, a bound environment variable name, and a type. -/
structure ConfigItem where
  name : String
  default : PyVal
  env_var_name : String
  var_type : VarType
deriving DecidableEq, Repr

/-- The `env_var_value` attribute computed in `ConfigItem.__init__`
from the ambient environment (`env` maps a variable name to its value,
`Option.none` meaning unset): for `bool`-typed items the raw
`os.getenv` result is passed through `truthy_value`; for `str`-typed
items it is stored as-is. -/
def ConfigItem.env_var_value (item : ConfigItem) (env : String → Option String) : PyVal :=
  match item.var_type with
  | VarType.bool => truthy_value (optStr (env item.env_var_name))
  | VarType.str => optStr (env item.env_var_name)

def dockerImageItem : ConfigItem :=
  ⟨"docker-image", PyVal.none, "WITH_DOCKER_IMAGE", VarType.str⟩

def dockerArgsItem : ConfigItem :=
  ⟨"docker-args", PyVal.none, "WITH_DOCKER_ARGS", VarType.str⟩

def removeContainerItem : ConfigItem :=
  ⟨"remove-container", PyVal.bool true, "WITH_DOCKER_RUN_RM", VarType.bool⟩

def mountConanDirsItem : ConfigItem :=
  ⟨"mount-conan-dirs", PyVal.bool true, "WITH_DOCKER_MOUNT_CONAN_DIRS", VarType.bool⟩

def mountWorkingDirItem : ConfigItem :=
  ⟨"mount-working-dir", PyVal.bool true, "WITH_DOCKER_MOUNT_WORKING_DIR", VarType.bool⟩

def containerNameItem : ConfigItem :=
  ⟨"container-name", PyVal.none, "WITH_DOCKER_CONTAINER_NAME", VarType.str⟩

def containerUserItem : ConfigItem :=
  ⟨"container-user", PyVal.none, "WITH_DOCKER_CONTAINER_USER", VarType.str⟩

/-- The static `WithDockerConfig.items` list, in source order. -/
def WithDockerConfig.items : List ConfigItem :=
  [dockerImageItem, dockerArgsItem, removeContainerItem, mountConanDirsItem,
   mountWorkingDirItem, containerNameItem, containerUserItem]

/-- The `defaults_dict` computed in `WithDockerConfig.__init__`:
`{item.name: str(item.default) for item in self.items if item.default is not None}`,
modelled as a lookup function. -/
def defaultsDict (name : String) : Option String :=
  (WithDockerConfig.items.find? (fun it => it.name == name)).bind
    (fun it => if it.default = PyVal.none then Option.none else Option.some (pyStr it.default))

/-- The mapping `dict(parser[command_name])` produced by `configparser`
when the `[with_docker]` section exists with raw contents `sec`: a
section key shadows the parser-level defaults (`defaultsDict`), which
are otherwise visible through every section. -/
def mergedSection (sec : String → Option String) (name : String) : Option String :=
  match sec name with
  | Option.some v => Option.some v
  | Option.none => defaultsDict name

/-- `WithDockerConfig.__init__`: `parser.read` silently skips a missing
config file, after which `parser[command_name]` raises
`KeyError(command_name)` when no `[with_docker]` section was loaded
(`configparser` defaults live in the DEFAULT section and do not create
the requested section).  Input `Option.none` models a missing config
file (or one without a `[with_docker]` section); `Option.some sec`
models a present section with raw contents `sec`.  On success the
result is the `_parsed_config` mapping. -/
def WithDockerConfig.parsed_config (conf : Option (String → Option String)) :
    Except String (String → Option String) :=
  match conf with
  | Option.none => Except.error "KeyError: with_docker"
  | Option.some sec => Except.ok (mergedSection sec)

/-- One entry of `WithDockerConfig.get_reconciled_defaults`:
`item.env_var_value or self._parsed_config.get(item.name) or item.default`,
with Python `or` semantics (`pc` is the `_parsed_config` mapping). -/
def reconciled_default (item : ConfigItem) (env : String → Option String)
    (pc : String → Option String) : PyVal :=
  pyOr (item.env_var_value env) (pyOr (optStr (pc item.name)) item.default)

/-- The final value argparse leaves on `parsed_args` for one setting:
an explicitly supplied command-line string wins outright (it replaces
the default installed by `set_defaults`); otherwise the reconciled
default is used. -/
def resolvedValue (item : ConfigItem) (cli : Option String)
    (env : String → Option String) (pc : String → Option String) : PyVal :=
  match cli with
  | Option.some s => PyVal.str s
  | Option.none => reconciled_default item env pc

/-- The host tool's configuration object as seen by the factory:
its Python truthiness, `Path(storage_path).parent` (the host conan
directory), and `short_paths_home`. -/
structure ConanConfig where
  truthy : Bool
  storage_path_parent : String
  short_paths_home : PyVal

/-- The ambient host environment read during command synthesis:
`os.getcwd()`, whether `platform.system() == "Windows"`, and the
`run_command` subprocess runner used by `docker inspect` (maps the
command line to its captured stdout). -/
structure Host where
  cwd : String
  is_windows : Bool
  runner : String → String

/-- The attributes of `parsed_args` after argparse applied
`set_defaults` and parsed the command line, one per `add_argument`
call in source order, plus the remainder positional. -/
structure ParsedArgs where
  docker_image : PyVal
  remove_container : PyVal
  docker_args : PyVal
  mount_conan_dirs : PyVal
  mount_working_dir : PyVal
  container_name : PyVal
  container_user : PyVal
  conan_command : List String

/-- The optional values explicitly supplied on the command line (one
per `--` option, `Option.none` when the flag was not given), plus the
remainder positional. -/
structure CliArgs where
  docker_image : Option String
  remove_container : Option String
  docker_args : Option String
  mount_conan_dirs : Option String
  mount_working_dir : Option String
  container_name : Option String
  container_user : Option String
  conan_command : List String

/-- `DockerCommandFactory.inspect_image_os`: runs
`docker inspect -f "{{ .Os }}" <image>` through `run_command` and
strips the captured output.  (No lower-casing is performed.) -/
def inspect_image_os (docker_image : String) (runner : String → String) : String :=
  pyStrip (runner ("docker inspect -f \"\x7b\x7b .Os \x7d\x7d\" " ++ docker_image))

/-- `DockerCommandFactory.container_working_dir`: Windows-style path if
`"windows" in self._docker_image_os`, POSIX-style otherwise; the user
is interpolated with f-string (`str`) formatting. -/
def container_working_dir (docker_image_os : String) (container_user : PyVal) : String :=
  if pyContains docker_image_os "windows" then
    "c:\\Users\\" ++ pyStr container_user ++ "\\project"
  else
    "/home/" ++ pyStr container_user ++ "/project"

/-- `DockerCommandFactory.container_conan_dir`. -/
def container_conan_dir (docker_image_os : String) (container_user : PyVal) : String :=
  if pyContains docker_image_os "windows" then
    "c:\\Users\\" ++ pyStr container_user ++ "\\.conan"
  else
    "/home/" ++ pyStr container_user ++ "/.conan"

/-- `DockerCommandFactory.container_shell`. -/
def container_shell (docker_image_os : String) : String :=
  if pyContains docker_image_os "windows" then "cmd /c" else "/bin/bash -c"

/-- `DockerCommandFactory.container_short_path_dir`. -/
def container_short_path_dir : String :=
  "C:\\.conan"

/-- `DockerCommandFactory.reconcile_container_user`: an explicit
(truthy) `--container-user` value is returned as-is; otherwise
`"ContainerUser"` for a Windows image OS and `"conan"` otherwise. -/
def reconcile_container_user (container_user : PyVal) (docker_image_os : String) : PyVal :=
  if container_user.truthy then container_user
  else if pyContains docker_image_os "windows" then PyVal.str "ContainerUser"
  else PyVal.str "conan"

/-- The instance attributes of `DockerCommandFactory` after
`__init__` ran: configuration collaborators, the parsed arguments, and
the values `__init__` computes from them (image, inspected image OS,
reconciled user, name and mount settings). -/
structure DockerCommandFactory where
  conan_config : ConanConfig
  conan_dir : String
  short_paths_home : PyVal
  parsed_args : ParsedArgs
  docker_image : String
  docker_image_os : String
  container_user : PyVal
  container_name : PyVal
  mount_working_dir : PyVal
  mount_conan_dirs : PyVal

/-- `DockerCommandFactory.__init__`: copies the collaborator values,
inspects the image OS through the host's runner, and reconciles the
container user.  (`docker_image` is a string at this point: the
`str`-typed setting passed the preceding truthiness check.) -/
def mkFactory (cc : ConanConfig) (pa : ParsedArgs) (host : Host) : DockerCommandFactory :=
  let image := pyStr pa.docker_image
  let image_os := inspect_image_os image host.runner
  ⟨cc, cc.storage_path_parent, cc.short_paths_home, pa, image, image_os,
   reconcile_container_user pa.container_user image_os, pa.container_name,
   pa.mount_working_dir, pa.mount_conan_dirs⟩

/-- `DockerCommandFactory.run`, before the final `" ".join`: the list
of appended fragments.  Note the `--rm` fragment is guarded by the
truthiness of `self._conan_config` (the conan configuration object),
not by the `remove-container` setting. -/
def DockerCommandFactory.runList (f : DockerCommandFactory) (host : Host) : List String :=
  let command := ["docker run"]
  let command := if f.conan_config.truthy then command ++ ["--rm"] else command
  let command := command ++ ["-w " ++ container_working_dir f.docker_image_os f.container_user]
  let command := if f.container_name.truthy then
      command ++ ["--name " ++ pyStr f.parsed_args.container_name]
    else command
  let command := if f.mount_working_dir.truthy then
      command ++ ["-v " ++ host.cwd ++ ":" ++ container_working_dir f.docker_image_os f.container_user]
    else command
  let command := if f.mount_conan_dirs.truthy then
      let command := command ++ ["-v " ++ f.conan_dir ++ ":" ++ container_conan_dir f.docker_image_os f.container_user]
      if host.is_windows && f.conan_config.short_paths_home.truthy then
        command ++ ["-v " ++ pyStr f.short_paths_home ++ ":" ++ container_short_path_dir]
      else command
    else command
  let command := command ++ [f.docker_image]
  let command := command ++ [container_shell f.docker_image_os]
  command

/-- `DockerCommandFactory.run`: the joined docker command string. -/
def DockerCommandFactory.run (f : DockerCommandFactory) (host : Host) : String :=
  String.intercalate " " (f.runList host)

/-- Replace only the `mount_working_dir` attribute of `ParsedArgs`. -/
def ParsedArgs.setMountWorkingDir (pa : ParsedArgs) (v : PyVal) : ParsedArgs :=
  ⟨pa.docker_image, pa.remove_container, pa.docker_args, pa.mount_conan_dirs, v,
   pa.container_name, pa.container_user, pa.conan_command⟩

/-- Replace only the `mount_conan_dirs` attribute of `ParsedArgs`. -/
def ParsedArgs.setMountConanDirs (pa : ParsedArgs) (v : PyVal) : ParsedArgs :=
  ⟨pa.docker_image, pa.remove_container, pa.docker_args, v, pa.mount_working_dir,
   pa.container_name, pa.container_user, pa.conan_command⟩

/-- Replace only the `docker_args` attribute of `ParsedArgs`. -/
def ParsedArgs.setDockerArgs (pa : ParsedArgs) (v : PyVal) : ParsedArgs :=
  ⟨pa.docker_image, pa.remove_container, v, pa.mount_conan_dirs, pa.mount_working_dir,
   pa.container_name, pa.container_user, pa.conan_command⟩

/-- The error message raised at line 71 of `cmd_with_docker.py` when
the `docker-image` setting is unresolved. -/
def missingImageMsg : String :=
  "\"docker-image\" must be provided via either: command-line argument, env var, or config file."

/-- The error message raised at line 73 of `cmd_with_docker.py` when
the wrapped-command positional is missing. -/
def missingCommandMsg : String :=
  "positional argument \"conan_command\" is required"

/-- The `with_docker` command body from configuration loading up to
the final command string: builds `WithDockerConfig` (which fails when
the config section is missing), resolves each setting (CLI over
reconciled defaults), checks the two required values, then synthesizes
the docker command and appends the quoted wrapped conan command.
Returns the command string that would be executed, or the raised
error. -/
def with_docker_run (conf : Option (String → Option String))
    (env : String → Option String) (cli : CliArgs) (cc : ConanConfig) (host : Host) :
    Except String String :=
  match WithDockerConfig.parsed_config conf with
  | Except.error e => Except.error e
  | Except.ok pc =>
    let pa : ParsedArgs :=
      ⟨resolvedValue dockerImageItem cli.docker_image env pc,
       resolvedValue removeContainerItem cli.remove_container env pc,
       resolvedValue dockerArgsItem cli.docker_args env pc,
       resolvedValue mountConanDirsItem cli.mount_conan_dirs env pc,
       resolvedValue mountWorkingDirItem cli.mount_working_dir env pc,
       resolvedValue containerNameItem cli.container_name env pc,
       resolvedValue containerUserItem cli.container_user env pc,
       cli.conan_command⟩
    if pa.docker_image.truthy = false then Except.error missingImageMsg
    else if pa.conan_command.isEmpty then Except.error missingCommandMsg
    else
      let final_conan_command := "conan " ++ String.intercalate " " pa.conan_command
      let factory := mkFactory cc pa host
      Except.ok (factory.run host ++ " \"" ++ final_conan_command ++ "\"")

/-- The image OS that `__init__` computes for a given parsed argument
set and host (abbreviation used to state toggle properties). -/
def imageOSOf (pa : ParsedArgs) (host : Host) : String :=
  inspect_image_os (pyStr pa.docker_image) host.runner

/-- The container user that `__init__` reconciles for a given parsed
argument set and host. -/
def userOf (pa : ParsedArgs) (host : Host) : PyVal :=
  reconcile_container_user pa.container_user (imageOSOf pa host)

/-- Concrete conan configuration on a Windows host with a short-paths
directory configured (exercises the coupled short-path mount). -/
def c8cc : ConanConfig :=
  ⟨true, "C:\\conandir", PyVal.str "C:\\sp"⟩

/-- Concrete Windows host whose engine reports a Windows image OS. -/
def c8host : Host :=
  ⟨"C:\\work", true, fun _ => "windows"⟩

/-- Concrete parsed arguments with `mount-conan-dirs` off. -/
def c8paF : ParsedArgs :=
  ⟨PyVal.str "wincore", PyVal.str "True", PyVal.none, PyVal.bool false, PyVal.bool false,
   PyVal.none, PyVal.none, ["install"]⟩

/-- Concrete parsed arguments with `mount-conan-dirs` on. -/
def c8paT : ParsedArgs :=
  ⟨PyVal.str "wincore", PyVal.str "True", PyVal.none, PyVal.bool true, PyVal.bool false,
   PyVal.none, PyVal.none, ["install"]⟩

/-! ## Helper lemmas -/

theorem pyOr_of_truthy (a b : PyVal) (h : a.truthy = true) : pyOr a b = a := by
  simp [pyOr, h]

theorem pyOr_of_falsy (a b : PyVal) (h : a.truthy = false) : pyOr a b = b := by
  simp [pyOr, h]

/-- For each declared setting, the `defaults_dict` lookup at its own
name yields exactly the stringified default (or nothing for a `None`
default): the names in `WithDockerConfig.items` are pairwise
distinct. -/
theorem defaultsDict_self (item : ConfigItem) (hmem : item ∈ WithDockerConfig.items) :
    defaultsDict item.name =
      (if item.default = PyVal.none then Option.none else Option.some (pyStr item.default)) := by
  fin_cases hmem <;> decide

/-- Settings with a non-`None` default in `WithDockerConfig.items`
stringify to a non-empty string ("True"). -/
theorem default_str_nonempty (item : ConfigItem) (hmem : item ∈ WithDockerConfig.items)
    (hd : ¬ item.default = PyVal.none) : (pyStr item.default == "") = false := by
  fin_cases hmem <;> simp_all <;> decide

/-- `run` assembles its fragment list as a fixed prefix (`docker run`,
optional `--rm`, `-w`, optional `--name`), then the optional
working-directory mount, then the optional conan-dir mounts, then the
image and shell. -/
theorem runList_decomp (f : DockerCommandFactory) (host : Host) :
    f.runList host =
      (["docker run"] ++ (if f.conan_config.truthy then ["--rm"] else []) ++
        ["-w " ++ container_working_dir f.docker_image_os f.container_user] ++
        (if f.container_name.truthy then
          ["--name " ++ pyStr f.parsed_args.container_name] else [])) ++
      (if f.mount_working_dir.truthy then
        ["-v " ++ host.cwd ++ ":" ++ container_working_dir f.docker_image_os f.container_user]
       else []) ++
      ((if f.mount_conan_dirs.truthy then
        ["-v " ++ f.conan_dir ++ ":" ++ container_conan_dir f.docker_image_os f.container_user] ++
          (if host.is_windows && f.conan_config.short_paths_home.truthy then
            ["-v " ++ pyStr f.short_paths_home ++ ":" ++ container_short_path_dir] else [])
        else []) ++
       [f.docker_image, container_shell f.docker_image_os]) := by
  simp only [DockerCommandFactory.runList]
  split_ifs <;> simp

/-- Sanity check of the embedding against the end-to-end scenario: a
linux image with working-dir mount on and conan-dir mount off
synthesizes exactly the expected command string. -/
theorem run_end_to_end_scenario :
    DockerCommandFactory.run
      (mkFactory ⟨true, "/home/u/.conan", PyVal.none⟩
        ⟨PyVal.str "ubuntu:22.04", PyVal.str "True", PyVal.none, PyVal.bool false,
         PyVal.bool true, PyVal.none, PyVal.none, ["install", "."]⟩
        ⟨"/work", false, fun _ => "linux\n"⟩)
      ⟨"/work", false, fun _ => "linux\n"⟩
    = "docker run --rm -w /home/conan/project -v /work:/home/conan/project ubuntu:22.04 /bin/bash -c" := by
  decide

/-! ## Claim theorems -/

/-- C4: for every string s, the boolean truthy parser returns true
exactly when the lower-cased form of s is one of "true", "t", "yes",
"y", "1"; every other string, including the empty string, parses to
false. -/
theorem c4_truthy_strings (s : String) :
    truthy_value (PyVal.str s) =
      PyVal.bool (pyLower s == "true" || pyLower s == "t" || pyLower s == "yes" ||
        pyLower s == "y" || pyLower s == "1") := by
  simp only [truthy_value, List.contains_cons, List.contains_nil, Bool.or_false,
    Bool.or_assoc, beq_eq_decide]

/-- C10: an input that is neither a bool nor a string (in particular
`None`, the value of an unset environment variable) makes the truthy
parser return `None`, not `False`; consequently a bool setting whose
environment variable is unset carries `env_var_value = None`. -/
theorem c10_none_not_false :
    (∀ v : PyVal, (∀ b, v ≠ PyVal.bool b) → (∀ s, v ≠ PyVal.str s) →
      truthy_value v = PyVal.none ∧ truthy_value v ≠ PyVal.bool false) ∧
    (∀ (item : ConfigItem) (env : String → Option String),
      item.var_type = VarType.bool → env item.env_var_name = Option.none →
      item.env_var_value env = PyVal.none) := by
  constructor
  · intro v hb hs
    cases v with
    | none => exact ⟨rfl, by decide⟩
    | bool b => exact absurd rfl (hb b)
    | str s => exact absurd rfl (hs s)
  · intro item env ht he
    simp [ConfigItem.env_var_value, ht, he, optStr, truthy_value]

/-- Witness for C10: the concrete unset-environment instance for the
bool-typed `remove-container` setting. -/
theorem c10_witness :
    truthy_value PyVal.none = PyVal.none ∧
    ConfigItem.env_var_value removeContainerItem (fun _ => Option.none) = PyVal.none :=
  ⟨(c10_none_not_false.1 PyVal.none (fun _ h => PyVal.noConfusion h)
      (fun _ h => PyVal.noConfusion h)).1,
   c10_none_not_false.2 removeContainerItem (fun _ => Option.none) rfl rfl⟩

/-- Counterexample to C7: with the engine reporting " Windows\n", the
inspection returns "Windows" — the trimmed but NOT lower-cased OS
field — which differs from the lower-cased-and-trimmed "windows" the
claim specifies. -/
theorem c7_counterexample :
    inspect_image_os "wincore" (fun _ => " Windows\n") = "Windows" ∧
    pyLower (pyStrip " Windows\n") = "windows" ∧
    inspect_image_os "wincore" (fun _ => " Windows\n") ≠ "windows" := by
  refine ⟨by decide, by decide, by decide⟩

/-- C7 (amended): the image-OS inspection returns the engine's
reported OS field trimmed of surrounding whitespace, with no
lower-casing applied. -/
theorem c7_inspect_trims_only (image : String) (runner : String → String) :
    inspect_image_os image runner =
      pyStrip (runner ("docker inspect -f \"\x7b\x7b .Os \x7d\x7d\" " ++ image)) := rfl

/-- C5 evaluated on the code: when the config file (or its
`[with_docker]` section) is absent, `WithDockerConfig.__init__` raises
`KeyError('with_docker')` at `parser[command_name]` instead of falling
through to the lower tiers, and the whole command aborts with that
error. -/
theorem c5_missing_config_file_raises :
    WithDockerConfig.parsed_config Option.none = Except.error "KeyError: with_docker" ∧
    ∀ (env : String → Option String) (cli : CliArgs) (cc : ConanConfig) (host : Host),
      with_docker_run Option.none env cli cc host = Except.error "KeyError: with_docker" :=
  ⟨rfl, fun _ _ _ _ => rfl⟩

/-- C2 evaluated on the code: `run` guards `--rm` with the truthiness
of the conan configuration object (always truthy in practice), never
with the `remove-container` setting; here the resolved
`remove-container` is the falsy empty string and `--rm` is still
emitted (and the remaining flags follow the fixed order). -/
theorem c2_rm_ignores_remove_container :
    PyVal.truthy (PyVal.str "") = false ∧
    DockerCommandFactory.runList
      (mkFactory ⟨true, "/home/u/.conan", PyVal.none⟩
        ⟨PyVal.str "ubuntu", PyVal.str "", PyVal.none, PyVal.bool false, PyVal.bool false,
         PyVal.none, PyVal.none, ["install", "."]⟩
        ⟨"/work", false, fun _ => "linux\n"⟩)
      ⟨"/work", false, fun _ => "linux\n"⟩
    = ["docker run", "--rm", "-w /home/conan/project", "ubuntu", "/bin/bash -c"] := by
  refine ⟨rfl, by decide⟩

/-- Counterexample to C3: the explicitly supplied empty-string
container user does not override the defaults — `reconcile_container_user`
tests Python truthiness, so `--container-user ""` falls back to the
OS-derived default. -/
theorem c3_counterexample :
    reconcile_container_user (PyVal.str "") "windows" = PyVal.str "ContainerUser" ∧
    PyVal.str "ContainerUser" ≠ PyVal.str "" := by
  refine ⟨by decide, by decide⟩

/-- C3 (amended): for every container user u, a Windows image OS gives
working directory `c:\Users\u\project` and shell `cmd /c`, any other
OS gives `/home/u/project` and `/bin/bash -c`; with no override the
user defaults to "ContainerUser" (Windows) or "conan" (otherwise), and
an explicit NON-EMPTY `--container-user` value always overrides both
defaults. -/
theorem c3_os_conventions_amended (u : String) (docker_image_os : String) :
    (pyContains docker_image_os "windows" = true →
      container_working_dir docker_image_os (PyVal.str u) = "c:\\Users\\" ++ u ++ "\\project" ∧
      container_shell docker_image_os = "cmd /c") ∧
    (pyContains docker_image_os "windows" = false →
      container_working_dir docker_image_os (PyVal.str u) = "/home/" ++ u ++ "/project" ∧
      container_shell docker_image_os = "/bin/bash -c") ∧
    (reconcile_container_user PyVal.none docker_image_os =
      (if pyContains docker_image_os "windows" then PyVal.str "ContainerUser"
       else PyVal.str "conan")) ∧
    (u ≠ "" → reconcile_container_user (PyVal.str u) docker_image_os = PyVal.str u) := by
  refine ⟨fun h => ⟨?_, ?_⟩, fun h => ⟨?_, ?_⟩, ?_, fun h => ?_⟩
  · simp [container_working_dir, h, pyStr]
  · simp [container_shell, h]
  · simp [container_working_dir, h, pyStr]
  · simp [container_shell, h]
  · simp [reconcile_container_user, PyVal.truthy]
  · simp [reconcile_container_user, PyVal.truthy, h]

/-- Witness for C3 (amended), at a Windows image OS with user "alice"
and a POSIX image OS with an explicit non-empty user. -/
theorem c3_witness :
    (container_working_dir "windows" (PyVal.str "alice") = "c:\\Users\\alice\\project" ∧
      container_shell "windows" = "cmd /c") ∧
    reconcile_container_user (PyVal.str "alice") "linux" = PyVal.str "alice" :=
  ⟨(c3_os_conventions_amended "alice" "windows").1 (by decide),
   (c3_os_conventions_amended "alice" "linux").2.2.2 (by decide)⟩

/-- C9: the `docker-args` setting never reaches command synthesis —
two parsed argument sets that differ only in `docker_args` synthesize
the identical docker command. -/
theorem c9_docker_args_unused (cc : ConanConfig) (pa : ParsedArgs) (host : Host)
    (v1 v2 : PyVal) :
    DockerCommandFactory.run (mkFactory cc (pa.setDockerArgs v1) host) host =
    DockerCommandFactory.run (mkFactory cc (pa.setDockerArgs v2) host) host := rfl

/-- Counterexample to C1: `get_reconciled_defaults` chains the tiers
with Python `or`, so the environment tier does NOT always beat the
file tier — with `WITH_DOCKER_RUN_RM=0` (a set environment variable
whose parsed value is `False`) and a config-file value `"true"`, the
resolved `remove-container` value is the file value, not the
environment value. -/
theorem c1_counterexample :
    ConfigItem.env_var_value removeContainerItem
        (fun n => if n == "WITH_DOCKER_RUN_RM" then Option.some "0" else Option.none)
      = PyVal.bool false ∧
    resolvedValue removeContainerItem Option.none
        (fun n => if n == "WITH_DOCKER_RUN_RM" then Option.some "0" else Option.none)
        (mergedSection
          (fun n => if n == "remove-container" then Option.some "true" else Option.none))
      = PyVal.str "true" ∧
    PyVal.str "true" ≠ PyVal.bool false := by
  refine ⟨by decide, by decide, by decide⟩

/-- C1 (amended): precedence holds in the Python-truthiness sense — a
CLI-supplied value always wins; otherwise the environment value wins
exactly when it is truthy (non-empty for strings, truthy-parsed `True`
for booleans); otherwise a non-empty config-file value wins; otherwise
the built-in default applies (stringified through the config parser's
defaults when the file lacks the key, the raw default when the file
holds an empty string). -/
theorem c1_precedence_amended (item : ConfigItem) (hmem : item ∈ WithDockerConfig.items)
    (env : String → Option String) (sec : String → Option String) :
    (∀ s, resolvedValue item (Option.some s) env (mergedSection sec) = PyVal.str s) ∧
    ((item.env_var_value env).truthy = true →
      resolvedValue item Option.none env (mergedSection sec) = item.env_var_value env) ∧
    ((item.env_var_value env).truthy = false → ∀ s, sec item.name = Option.some s → s ≠ "" →
      resolvedValue item Option.none env (mergedSection sec) = PyVal.str s) ∧
    ((item.env_var_value env).truthy = false → sec item.name = Option.none →
      resolvedValue item Option.none env (mergedSection sec) =
        (if item.default = PyVal.none then PyVal.none else PyVal.str (pyStr item.default))) ∧
    ((item.env_var_value env).truthy = false → sec item.name = Option.some "" →
      resolvedValue item Option.none env (mergedSection sec) = item.default) := by
  refine ⟨fun s => rfl, ?_, ?_, ?_, ?_⟩
  · intro h
    simp [resolvedValue, reconciled_default, pyOr_of_truthy _ _ h]
  · intro h s hs hne
    have hb : (s == "") = false := by simp [hne]
    have h1 : resolvedValue item Option.none env (mergedSection sec)
        = pyOr (optStr (mergedSection sec item.name)) item.default := by
      simp [resolvedValue, reconciled_default, pyOr_of_falsy _ _ h]
    rw [h1, mergedSection, hs]
    simp [optStr, pyOr, PyVal.truthy, hb]
  · intro h hn
    have : resolvedValue item Option.none env (mergedSection sec)
        = pyOr (optStr (mergedSection sec item.name)) item.default := by
      simp [resolvedValue, reconciled_default, pyOr_of_falsy _ _ h]
    rw [this]
    have hm : mergedSection sec item.name =
        (if item.default = PyVal.none then Option.none
         else Option.some (pyStr item.default)) := by
      rw [mergedSection, hn, defaultsDict_self item hmem]
    rw [hm]
    by_cases hd : item.default = PyVal.none
    · simp [hd, optStr, pyOr, PyVal.truthy]
    · simp [hd, optStr, pyOr, PyVal.truthy, default_str_nonempty item hmem hd]
  · intro h hs
    have h1 : resolvedValue item Option.none env (mergedSection sec)
        = pyOr (optStr (mergedSection sec item.name)) item.default := by
      simp [resolvedValue, reconciled_default, pyOr_of_falsy _ _ h]
    rw [h1, mergedSection, hs]
    simp [optStr, pyOr, PyVal.truthy]

/-- Witness for C1 (amended): a CLI-supplied "false" wins for
`remove-container`, and with everything unset the stringified default
"True" is resolved. -/
theorem c1_witness :
    resolvedValue removeContainerItem (Option.some "false") (fun _ => Option.none)
      (mergedSection (fun _ => Option.none)) = PyVal.str "false" ∧
    resolvedValue removeContainerItem Option.none (fun _ => Option.none)
      (mergedSection (fun _ => Option.none)) = PyVal.str "True" := by
  constructor
  · exact (c1_precedence_amended removeContainerItem (by decide) (fun _ => Option.none)
      (fun _ => Option.none)).1 "false"
  · have := (c1_precedence_amended removeContainerItem (by decide) (fun _ => Option.none)
      (fun _ => Option.none)).2.2.2.1 (by decide) rfl
    simpa using this

/-- C6: with the `[with_docker]` section present but `docker-image`
unresolved at every tier (no CLI value, unset environment variable, no
file key — and its default is `None`), the command fails with the
missing-image configuration error before any docker command is
synthesized; likewise a missing wrapped-command positional fails with
the missing-positional configuration error. -/
theorem c6_required_settings (sec env : String → Option String) (cli : CliArgs)
    (cc : ConanConfig) (host : Host) :
    (cli.docker_image = Option.none → env "WITH_DOCKER_IMAGE" = Option.none →
      sec "docker-image" = Option.none →
      with_docker_run (Option.some sec) env cli cc host = Except.error missingImageMsg) ∧
    (∀ s, cli.docker_image = Option.some s → s ≠ "" → cli.conan_command = [] →
      with_docker_run (Option.some sec) env cli cc host = Except.error missingCommandMsg) := by
  constructor
  · intro hcli henv hsec
    have hdd : defaultsDict "docker-image" = Option.none := by decide
    simp [with_docker_run, WithDockerConfig.parsed_config, resolvedValue,
      reconciled_default, ConfigItem.env_var_value, dockerImageItem, hcli, henv,
      mergedSection, hsec, hdd, optStr, pyOr, PyVal.truthy]
  · intro s hcli hne hcc
    have hb : (s == "") = false := by simp [hne]
    simp [with_docker_run, WithDockerConfig.parsed_config, resolvedValue, hcli, hcc,
      PyVal.truthy, hb, List.isEmpty]

/-- Witness for C6: the fully-unset concrete instance for the first
part, and an image-only invocation with empty wrapped command for the
second. -/
theorem c6_witness :
    with_docker_run (Option.some (fun _ => Option.none)) (fun _ => Option.none)
      ⟨Option.none, Option.none, Option.none, Option.none, Option.none, Option.none,
       Option.none, []⟩ ⟨true, "/home/u/.conan", PyVal.none⟩ ⟨"/work", false, fun _ => "linux"⟩
      = Except.error missingImageMsg ∧
    with_docker_run (Option.some (fun _ => Option.none)) (fun _ => Option.none)
      ⟨Option.some "ubuntu", Option.none, Option.none, Option.none, Option.none, Option.none,
       Option.none, []⟩ ⟨true, "/home/u/.conan", PyVal.none⟩ ⟨"/work", false, fun _ => "linux"⟩
      = Except.error missingCommandMsg :=
  ⟨(c6_required_settings (fun _ => Option.none) (fun _ => Option.none)
      ⟨Option.none, Option.none, Option.none, Option.none, Option.none, Option.none,
       Option.none, []⟩ ⟨true, "/home/u/.conan", PyVal.none⟩
      ⟨"/work", false, fun _ => "linux"⟩).1 rfl rfl rfl,
   (c6_required_settings (fun _ => Option.none) (fun _ => Option.none)
      ⟨Option.some "ubuntu", Option.none, Option.none, Option.none, Option.none, Option.none,
       Option.none, []⟩ ⟨true, "/home/u/.conan", PyVal.none⟩
      ⟨"/work", false, fun _ => "linux"⟩).2 "ubuntu" rfl (by decide) rfl⟩

/-- Counterexample to C8: on a Windows host with a short-paths
directory configured, toggling `mount-conan-dirs` on does NOT add
exactly the conan-dir `-v` flag with everything else unchanged — the
short-path mount flag is added as well (two insertions, so no single
insertion of the conan-dir flag relates the two commands). -/
theorem c8_counterexample :
    ¬ ∃ pre post : List String,
      DockerCommandFactory.runList (mkFactory c8cc c8paF c8host) c8host = pre ++ post ∧
      DockerCommandFactory.runList (mkFactory c8cc c8paT c8host) c8host =
        pre ++ ["-v C:\\conandir:c:\\Users\\ContainerUser\\.conan"] ++ post := by
  rintro ⟨pre, post, h0, h1⟩
  rw [show DockerCommandFactory.runList (mkFactory c8cc c8paF c8host) c8host =
      ["docker run", "--rm", "-w c:\\Users\\ContainerUser\\project", "wincore", "cmd /c"]
    from by decide] at h0
  rw [show DockerCommandFactory.runList (mkFactory c8cc c8paT c8host) c8host =
      ["docker run", "--rm", "-w c:\\Users\\ContainerUser\\project",
       "-v C:\\conandir:c:\\Users\\ContainerUser\\.conan", "-v C:\\sp:C:\\.conan",
       "wincore", "cmd /c"] from by decide] at h1
  have e0 := congrArg List.length h0
  have e1 := congrArg List.length h1
  simp [List.length_append] at e0 e1
  omega

/-- C8 (amended): toggling `mount-working-dir` adds or removes exactly
the working-directory `-v` flag with every other fragment unchanged;
toggling `mount-conan-dirs` adds or removes exactly the conan-dir `-v`
flag — together with the short-path `-v` flag when the host is Windows
and a short-paths directory is configured — with every other fragment
unchanged; any combination of the two toggles is valid. -/
theorem c8_mount_toggles_amended (cc : ConanConfig) (pa : ParsedArgs) (host : Host) :
    (∃ pre post,
      DockerCommandFactory.runList (mkFactory cc (pa.setMountWorkingDir (PyVal.bool false)) host) host
        = pre ++ post ∧
      DockerCommandFactory.runList (mkFactory cc (pa.setMountWorkingDir (PyVal.bool true)) host) host
        = pre ++ ["-v " ++ host.cwd ++ ":" ++
            container_working_dir (imageOSOf pa host) (userOf pa host)] ++ post) ∧
    (∃ pre post,
      DockerCommandFactory.runList (mkFactory cc (pa.setMountConanDirs (PyVal.bool false)) host) host
        = pre ++ post ∧
      DockerCommandFactory.runList (mkFactory cc (pa.setMountConanDirs (PyVal.bool true)) host) host
        = pre ++ (["-v " ++ cc.storage_path_parent ++ ":" ++
              container_conan_dir (imageOSOf pa host) (userOf pa host)] ++
            (if host.is_windows && cc.short_paths_home.truthy then
              ["-v " ++ pyStr cc.short_paths_home ++ ":" ++ container_short_path_dir]
             else [])) ++ post) := by
  constructor
  · refine ⟨["docker run"] ++ (if cc.truthy then ["--rm"] else []) ++
      ["-w " ++ container_working_dir (imageOSOf pa host) (userOf pa host)] ++
      (if pa.container_name.truthy then ["--name " ++ pyStr pa.container_name] else []),
      (if pa.mount_conan_dirs.truthy then
        ["-v " ++ cc.storage_path_parent ++ ":" ++
            container_conan_dir (imageOSOf pa host) (userOf pa host)] ++
          (if host.is_windows && cc.short_paths_home.truthy then
            ["-v " ++ pyStr cc.short_paths_home ++ ":" ++ container_short_path_dir] else [])
       else []) ++ [pyStr pa.docker_image, container_shell (imageOSOf pa host)], ?_, ?_⟩
    · rw [runList_decomp]
      simp [mkFactory, ParsedArgs.setMountWorkingDir, imageOSOf, userOf, PyVal.truthy]
    · rw [runList_decomp]
      simp [mkFactory, ParsedArgs.setMountWorkingDir, imageOSOf, userOf, PyVal.truthy]
  · refine ⟨["docker run"] ++ (if cc.truthy then ["--rm"] else []) ++
      ["-w " ++ container_working_dir (imageOSOf pa host) (userOf pa host)] ++
      (if pa.container_name.truthy then ["--name " ++ pyStr pa.container_name] else []) ++
      (if pa.mount_working_dir.truthy then
        ["-v " ++ host.cwd ++ ":" ++ container_working_dir (imageOSOf pa host) (userOf pa host)]
       else []),
      [pyStr pa.docker_image, container_shell (imageOSOf pa host)], ?_, ?_⟩
    · rw [runList_decomp]
      simp [mkFactory, ParsedArgs.setMountConanDirs, imageOSOf, userOf, PyVal.truthy]
    · rw [runList_decomp]
      simp [mkFactory, ParsedArgs.setMountConanDirs, imageOSOf, userOf, PyVal.truthy]
